import Mathlib

/-!
Shallow embedding of the twopence client library (src/library/twopence.c and
src/library/ssh.c): the output sink, the error-code taxonomy and its string
mapping, the plugin registry and target-spec parsing, and the SSH transaction,
transfer and interrupt machinery.  External collaborators (libssh calls,
file descriptors, dlopen) are represented by explicit outcome parameters,
following the boundary description of the remote session provider.
-/

/-- Modelled from the spec: the header twopence.h that defines the numeric
result codes is not part of src/; the spec fixes a closed taxonomy of fifteen
distinct codes.  We model them as the conventional distinct negative
integers, in the order the taxonomy lists them. -/
def TWOPENCE_PARAMETER_ERROR : Int := -1

def TWOPENCE_OPEN_SESSION_ERROR : Int := -2

def TWOPENCE_SEND_COMMAND_ERROR : Int := -3

def TWOPENCE_FORWARD_INPUT_ERROR : Int := -4

def TWOPENCE_RECEIVE_RESULTS_ERROR : Int := -5

def TWOPENCE_LOCAL_FILE_ERROR : Int := -6

def TWOPENCE_SEND_FILE_ERROR : Int := -7

def TWOPENCE_REMOTE_FILE_ERROR : Int := -8

def TWOPENCE_RECEIVE_FILE_ERROR : Int := -9

def TWOPENCE_INTERRUPT_COMMAND_ERROR : Int := -10

def TWOPENCE_INVALID_TARGET_SPEC : Int := -11

def TWOPENCE_UNKNOWN_PLUGIN : Int := -12

def TWOPENCE_INCOMPATIBLE_PLUGIN : Int := -13

def TWOPENCE_NOT_SUPPORTED : Int := -14

def TWOPENCE_COMMAND_TIMEOUT_ERROR : Int := -15

/-- The closed error taxonomy of the spec (all fifteen result codes). -/
def twopence_error_codes : List Int :=
  [TWOPENCE_PARAMETER_ERROR, TWOPENCE_OPEN_SESSION_ERROR,
   TWOPENCE_SEND_COMMAND_ERROR, TWOPENCE_FORWARD_INPUT_ERROR,
   TWOPENCE_RECEIVE_RESULTS_ERROR, TWOPENCE_LOCAL_FILE_ERROR,
   TWOPENCE_SEND_FILE_ERROR, TWOPENCE_REMOTE_FILE_ERROR,
   TWOPENCE_RECEIVE_FILE_ERROR, TWOPENCE_INTERRUPT_COMMAND_ERROR,
   TWOPENCE_INVALID_TARGET_SPEC, TWOPENCE_UNKNOWN_PLUGIN,
   TWOPENCE_INCOMPATIBLE_PLUGIN, TWOPENCE_NOT_SUPPORTED,
   TWOPENCE_COMMAND_TIMEOUT_ERROR]

/-- The thirteen codes that twopence_strerror actually has a case for
(src/library/twopence.c, the switch in twopence_strerror). -/
def twopence_strerror_handled : List Int :=
  [TWOPENCE_PARAMETER_ERROR, TWOPENCE_OPEN_SESSION_ERROR,
   TWOPENCE_SEND_COMMAND_ERROR, TWOPENCE_FORWARD_INPUT_ERROR,
   TWOPENCE_RECEIVE_RESULTS_ERROR, TWOPENCE_LOCAL_FILE_ERROR,
   TWOPENCE_SEND_FILE_ERROR, TWOPENCE_REMOTE_FILE_ERROR,
   TWOPENCE_RECEIVE_FILE_ERROR, TWOPENCE_INTERRUPT_COMMAND_ERROR,
   TWOPENCE_INVALID_TARGET_SPEC, TWOPENCE_UNKNOWN_PLUGIN,
   TWOPENCE_INCOMPATIBLE_PLUGIN]

/-- twopence_strerror from src/library/twopence.c: switch over the result
code, with a default of the literal string "Unknow error" (sic). -/
def twopence_strerror (rc : Int) : String :=
  if rc = TWOPENCE_PARAMETER_ERROR then "Invalid command parameter"
  else if rc = TWOPENCE_OPEN_SESSION_ERROR then
    "Error opening the communication with the system under test"
  else if rc = TWOPENCE_SEND_COMMAND_ERROR then
    "Error sending command to the system under test"
  else if rc = TWOPENCE_FORWARD_INPUT_ERROR then
    "Error forwarding keyboard input"
  else if rc = TWOPENCE_RECEIVE_RESULTS_ERROR then
    "Error receiving the results of action"
  else if rc = TWOPENCE_LOCAL_FILE_ERROR then
    "Local error while transferring file"
  else if rc = TWOPENCE_SEND_FILE_ERROR then
    "Error sending file to the system under test"
  else if rc = TWOPENCE_REMOTE_FILE_ERROR then
    "Remote error while transferring file"
  else if rc = TWOPENCE_RECEIVE_FILE_ERROR then
    "Error receiving file from the system under test"
  else if rc = TWOPENCE_INTERRUPT_COMMAND_ERROR then
    "Failed to interrupt command"
  else if rc = TWOPENCE_INVALID_TARGET_SPEC then "Invalid target spec"
  else if rc = TWOPENCE_UNKNOWN_PLUGIN then "Unknown plugin"
  else if rc = TWOPENCE_INCOMPATIBLE_PLUGIN then "Incompatible plugin"
  else "Unknow error"

/-! ## Output sink (src/library/twopence.c) -/

/-- The four output modes of twopence_output_t. -/
inductive twopence_output_t where
  | OUTPUT_NONE
  | OUTPUT_SCREEN
  | OUTPUT_BUFFER
  | OUTPUT_BUFFER_SEPARATELY
deriving DecidableEq

open twopence_output_t

/-- struct twopence_buffer: tail and end pointers over a caller buffer.
We keep the bytes stored so far (written, in order) and the capacity
(size); the C tail pointer is head plus written.length, the C end pointer
is head plus size, so the C guard tail >= end is written.length >= size. -/
structure twopence_buffer where
  written : List Char
  size : Nat
deriving DecidableEq

/-- The C function __twopence_buffer_putc: store one byte unless the cursor reached the
bound; returns how many bytes were stored (1 or 0). -/
def __twopence_buffer_putc (bp : twopence_buffer) (c : Char) :
    twopence_buffer × Nat :=
  if bp.written.length ≥ bp.size then (bp, 0)
  else ({ bp with written := bp.written ++ [c] }, 1)

/-- struct twopence_sink: mode plus the two buffers. -/
structure twopence_sink where
  mode : twopence_output_t
  outbuf : twopence_buffer
  errbuf : twopence_buffer
deriving DecidableEq

/-- twopence_sink_init.  The outbuf and errbuf pointer arguments are
abstracted to presence booleans; memset to zero gives empty buffers of
size zero, and the buffered modes fall back to OUTPUT_NONE when a needed
buffer is absent or bufsize is zero. -/
def twopence_sink_init (mode : twopence_output_t)
    (outbufPresent errbufPresent : Bool) (bufsize : Nat) : twopence_sink :=
  let zeroBuf : twopence_buffer := ⟨[], 0⟩
  match mode with
  | OUTPUT_NONE => ⟨OUTPUT_NONE, zeroBuf, zeroBuf⟩
  | OUTPUT_SCREEN => ⟨OUTPUT_SCREEN, zeroBuf, zeroBuf⟩
  | OUTPUT_BUFFER =>
      if outbufPresent ∧ bufsize ≠ 0 then
        ⟨OUTPUT_BUFFER, ⟨[], bufsize⟩, zeroBuf⟩
      else ⟨OUTPUT_NONE, zeroBuf, zeroBuf⟩
  | OUTPUT_BUFFER_SEPARATELY =>
      if outbufPresent ∧ errbufPresent ∧ bufsize ≠ 0 then
        ⟨OUTPUT_BUFFER_SEPARATELY, ⟨[], bufsize⟩, ⟨[], bufsize⟩⟩
      else ⟨OUTPUT_NONE, zeroBuf, zeroBuf⟩

/-- The C function __twopence_sink_write_stdout.  The write(1, ...) system call of
OUTPUT_SCREEN mode is external; its result (bytes written) is the
screenWriteRes parameter.  Returns the updated sink and the return code:
0 on success, -1 when the byte was not written (written != 1). -/
def __twopence_sink_write_stdout (sink : twopence_sink) (c : Char)
    (screenWriteRes : Int) : twopence_sink × Int :=
  match sink.mode with
  | OUTPUT_NONE => (sink, 0)
  | OUTPUT_SCREEN => (sink, if screenWriteRes = 1 then 0 else -1)
  | OUTPUT_BUFFER =>
      let r := __twopence_buffer_putc sink.outbuf c
      ({ sink with outbuf := r.1 }, if r.2 = 1 then 0 else -1)
  | OUTPUT_BUFFER_SEPARATELY =>
      let r := __twopence_buffer_putc sink.outbuf c
      ({ sink with outbuf := r.1 }, if r.2 = 1 then 0 else -1)

/-- The C function __twopence_sink_write_stderr: like stdout, but the separately buffered
mode uses errbuf. -/
def __twopence_sink_write_stderr (sink : twopence_sink) (c : Char)
    (screenWriteRes : Int) : twopence_sink × Int :=
  match sink.mode with
  | OUTPUT_NONE => (sink, 0)
  | OUTPUT_SCREEN => (sink, if screenWriteRes = 1 then 0 else -1)
  | OUTPUT_BUFFER =>
      let r := __twopence_buffer_putc sink.outbuf c
      ({ sink with outbuf := r.1 }, if r.2 = 1 then 0 else -1)
  | OUTPUT_BUFFER_SEPARATELY =>
      let r := __twopence_buffer_putc sink.errbuf c
      ({ sink with errbuf := r.1 }, if r.2 = 1 then 0 else -1)

/-- Repeated byte writes to the stdout side of a sink (the arbitrary write
sequences the sink properties quantify over). -/
def twopence_sink_write_stdout_seq (sink : twopence_sink) (cs : List Char)
    (screenWriteRes : Int) : twopence_sink :=
  cs.foldl (fun s c => (__twopence_sink_write_stdout s c screenWriteRes).1) sink

/-! ## Plugin registry (src/library/twopence.c) -/

/-- twopence_plugin_type: map a plugin name to its type tag.  The numeric
tags come from the header (not in src/): UNKNOWN is -1 and VIRTIO, SSH,
SERIAL are 0, 1, 2, with the MAX sentinel 3. -/
def twopence_plugin_type (name : List Char) : Int :=
  if name = "virtio".toList then 0
  else if name = "ssh".toList then 1
  else if name = "serial".toList then 2
  else -1

/-- twopence_plugin_name_is_valid: the name maps to a known type tag. -/
def twopence_plugin_name_is_valid (name : List Char) : Bool :=
  twopence_plugin_type name ≠ -1

/-- twopence_target_split: split "plugin:specstring".  strcspn gives the
prefix before the first colon; a zero-length prefix fails, as does an
unrecognized plugin name.  The rest pointer is NULL (none) when the spec
had no colon at all. -/
def twopence_target_split (spec : List Char) :
    Option (List Char × Option (List Char)) :=
  let plugin := spec.takeWhile (fun c => c ≠ ':')
  if plugin.length = 0 then none
  else
    let rest : Option (List Char) :=
      match spec.drop plugin.length with
      | [] => none
      | _ :: tl => some tl
    if twopence_plugin_name_is_valid plugin then some (plugin, rest)
    else none

/-- Environment for the dynamic-loading side of the registry: whether
dlopen succeeds for a plugin type, whether the ops vector symbol is found,
whether the vector has an init entry, and whether that init returns a
handle for a given remainder spec. -/
structure twopence_dl_env where
  dlopenOk : Int → Bool
  vectorPresent : Int → Bool
  hasInit : Int → Bool
  initReturnsHandle : Int → Option (List Char) → Bool

/-- The C function __twopence_get_plugin_ops: unknown or out-of-range type tag, or a
failed dlopen, give TWOPENCE_UNKNOWN_PLUGIN; a missing ops vector gives
TWOPENCE_INCOMPATIBLE_PLUGIN; otherwise 0.  (The load-once cache only
memoizes the dlopen result and does not change the returned code.) -/
def __twopence_get_plugin_ops (env : twopence_dl_env) (name : List Char) :
    Int :=
  let type := twopence_plugin_type name
  if type = -1 ∨ type ≥ 3 then TWOPENCE_UNKNOWN_PLUGIN
  else if ¬ env.dlopenOk type then TWOPENCE_UNKNOWN_PLUGIN
  else if ¬ env.vectorPresent type then TWOPENCE_INCOMPATIBLE_PLUGIN
  else 0

/-- The C function __twopence_target_new: split the spec, load the plugin ops, check the
init entry, call init with the remainder; report which error code the
caller sees (0 meaning a handle was produced). -/
def __twopence_target_new (env : twopence_dl_env) (spec : List Char) : Int :=
  match twopence_target_split spec with
  | none => TWOPENCE_INVALID_TARGET_SPEC
  | some (name, rest) =>
    let rc := __twopence_get_plugin_ops env name
    if rc < 0 then rc
    else if ¬ env.hasInit (twopence_plugin_type name) then
      TWOPENCE_INCOMPATIBLE_PLUGIN
    else if ¬ env.initReturnsHandle (twopence_plugin_type name) rest then
      TWOPENCE_UNKNOWN_PLUGIN
    else 0

/-! ## SSH target-spec parsing (src/library/ssh.c, twopence_ssh_init) -/

/-- C isspace in the default locale, by ASCII code point: space (32) or
one of horizontal tab through carriage return (9 to 13). -/
def isSpaceC (c : Char) : Bool := c.toNat = 32 ∨ (9 ≤ c.toNat ∧ c.toNat ≤ 13)

/-- C isdigit, by ASCII code point: 48 is the digit zero, 57 is nine. -/
def isDigitC (c : Char) : Bool := 48 ≤ c.toNat ∧ c.toNat ≤ 57

/-- Numeric value of a string of decimal digits. -/
def digitsToNat (ds : List Char) : Nat :=
  ds.foldl (fun acc c => 10 * acc + (c.toNat - '0'.toNat)) 0

/-- ULONG_MAX for the 64-bit unsigned long of the target platform. -/
def ULONG_MAX : Nat := 2 ^ 64 - 1

/-- strtoul(s, &end, 10): skip whitespace, accept an optional sign, then
decimal digits.  Returns the converted value and the rest of the string
after the consumed prefix.  If there are no digits, the value is 0 and
nothing is consumed (end = nptr).  The magnitude clamps to ULONG_MAX on
overflow; a minus sign negates modulo 2^64. -/
def strtoul10 (s : List Char) : Nat × List Char :=
  let afterSpace := s.dropWhile isSpaceC
  let neg : Bool := afterSpace.head? = some '-'
  let afterSign :=
    if afterSpace.head? = some '-' ∨ afterSpace.head? = some '+' then
      afterSpace.tail
    else afterSpace
  let digits := afterSign.takeWhile isDigitC
  if digits.length = 0 then (0, s)
  else
    let n := digitsToNat digits
    let value :=
      if n > ULONG_MAX then ULONG_MAX
      else if neg then (2 ^ 64 - n) % 2 ^ 64
      else n
    (value, afterSign.drop digits.length)

/-- The handle produced by __twopence_ssh_init: an SSH target with the
host and port stored in its session template, and (from the calloc) no
foreground transaction yet.  The twopence_ssh_transaction record is
defined further down; here we only need the host and port. -/
structure twopence_ssh_target_template where
  host : List Char
  port : Nat
deriving DecidableEq

/-- Strip the outer brackets of an IPv6-style hostname: only when the
first character is an opening bracket and the last character is a closing
bracket (so a lone opening bracket stays as it is). -/
def twopence_ssh_strip_brackets (h : List Char) : List Char :=
  match h with
  | '[' :: tl =>
      if ('[' :: tl).getLast? = some ']' then tl.dropLast
      else '[' :: tl
  | other => other

/-- Split a list at its last colon (the strrchr split); the caller
guarantees a colon is present.  Returns (before, after). -/
def splitAtLastColon (arg : List Char) : List Char × List Char :=
  let rev := arg.reverse
  let afterRev := rev.takeWhile (fun c => c ≠ ':')
  ((rev.drop (afterRev.length + 1)).reverse, afterRev.reverse)

/-- twopence_ssh_init: the part of the target spec after "ssh:".  With no
colon, the whole argument is the host and the port is 22.  Otherwise the
suffix after the last colon goes through strtoul; any unconsumed trailing
character or a value of at least 65535 makes the call fail silently with
no handle; the host part then has IPv6 brackets stripped. -/
def twopence_ssh_init (arg : List Char) : Option twopence_ssh_target_template :=
  if ¬ arg.contains ':' then some ⟨arg, 22⟩
  else
    let parts := splitAtLastColon arg
    let r := strtoul10 parts.2
    if r.2 ≠ [] ∨ r.1 ≥ 65535 then none
    else some ⟨twopence_ssh_strip_brackets parts.1, r.1⟩

/-! ## SSH transaction engine (src/library/ssh.c) -/

/-- libssh return codes used by the code under src/. -/
def SSH_OK : Int := 0

def SSH_ERROR : Int := -1

/-- errno EFAULT on the target platform, used by the signal-death
convention of the exit-status synthesis. -/
def EFAULT : Int := 14

/-- The fields of struct twopence_ssh_transaction that the claims are
about.  Pointers are presence booleans (channelOpen for channel != NULL,
hasStatusRet for status_ret != NULL); a fresh transaction is calloc
zeroed. -/
structure twopence_ssh_transaction where
  channelOpen : Bool
  exception : Int
  hasStatusRet : Bool
  stdinEof : Bool
  eofSent : Bool
  useTty : Bool
  interrupted : Bool
  exit_signal : Int
deriving DecidableEq

/-- The C function __twopence_ssh_transaction_new: calloc gives all-zero fields (the
channel is NULL, no exception, no status slot, nothing sent yet). -/
def __twopence_ssh_transaction_new : twopence_ssh_transaction :=
  { channelOpen := false, exception := 0, hasStatusRet := false,
    stdinEof := false, eofSent := false, useTty := false,
    interrupted := false, exit_signal := 0 }

/-- The C function __twopence_ssh_transaction_fail: record an exception only if none is
recorded yet (C truthiness: the field is unset while it is 0). -/
def __twopence_ssh_transaction_fail (trans : twopence_ssh_transaction)
    (error : Int) : twopence_ssh_transaction :=
  if trans.exception = 0 then { trans with exception := error } else trans

/-- First nonzero entry of a list of recorded error codes (0 if none):
the value the sticky-exception contract promises. -/
def firstNonzero : List Int → Int
  | [] => 0
  | x :: tl => if x ≠ 0 then x else firstNonzero tl

/-- Results of the two libssh calls made while sending end-of-input:
ssh_channel_write of the 0x04 byte returns a byte count or SSH_ERROR, and
ssh_channel_send_eof returns SSH_OK or SSH_ERROR. -/
structure twopence_eof_world where
  writeCtrlDRes : Int
  sendEofRes : Int

/-- Result of one call to __twopence_ssh_transaction_send_eof: the updated
transaction, the returned rc, and which external actions were performed
(whether ssh_channel_write of 0x04 was called, and whether
ssh_channel_send_eof was called). -/
structure twopence_send_eof_result where
  trans : twopence_ssh_transaction
  rc : Int
  wroteCtrlD : Bool
  calledSendEof : Bool
deriving DecidableEq

/-- The C function __twopence_ssh_transaction_send_eof: no-op when the channel is gone or
eof_sent is already set.  Under a tty, first write the 0x04 byte; the
following ssh_channel_send_eof call and the eof_sent update are guarded by
comparing the running rc with SSH_OK. -/
def __twopence_ssh_transaction_send_eof (w : twopence_eof_world)
    (trans : twopence_ssh_transaction) : twopence_send_eof_result :=
  if ¬ trans.channelOpen ∨ trans.eofSent then
    ⟨trans, SSH_OK, false, false⟩
  else
    let rc0 := if trans.useTty then w.writeCtrlDRes else SSH_OK
    if rc0 = SSH_OK then
      let rc1 := w.sendEofRes
      let trans1 := if rc1 = SSH_OK then { trans with eofSent := true }
        else trans
      ⟨trans1, rc1, trans.useTty, true⟩
    else ⟨trans, rc0, trans.useTty, false⟩

/-- The C function __twopence_ssh_transaction_mark_stdin_eof: set the stdin end-of-stream
flag, send end-of-input, report -1 only when that returned SSH_ERROR.
(The pollfd reset is not modelled.)  Returns the transaction, the rc, and
the two performed-action flags of the inner send_eof call. -/
def __twopence_ssh_transaction_mark_stdin_eof (w : twopence_eof_world)
    (trans : twopence_ssh_transaction) :
    twopence_ssh_transaction × Int × Bool × Bool :=
  let r := __twopence_ssh_transaction_send_eof w
    { trans with stdinEof := true }
  if r.rc = SSH_ERROR then (r.trans, -1, r.wroteCtrlD, r.calledSendEof)
  else (r.trans, 0, r.wroteCtrlD, r.calledSendEof)

/-- NSIG of the target platform (glibc on Linux). -/
def NSIG : Nat := 65

/-- The signal-name table of __twopence_ssh_exit_signal_callback, as the
runtime array: designated initializers by signal number, with Linux
numbers.  SIGIOT and SIGABRT are both 6, so the later initializer "IOT"
is the one the array holds at index 6 and "ABRT" is not in the table. -/
def signamesList : List (Nat × String) :=
  [(1, "HUP"), (2, "INT"), (3, "QUIT"), (4, "ILL"), (5, "TRAP"),
   (6, "IOT"), (7, "BUS"), (8, "FPE"), (9, "KILL"), (10, "USR1"),
   (11, "SEGV"), (12, "USR2"), (13, "PIPE"), (14, "ALRM"), (15, "TERM"),
   (16, "STKFLT"), (17, "CHLD"), (18, "CONT"), (19, "STOP"), (20, "TSTP"),
   (21, "TTIN"), (22, "TTOU"), (23, "URG"), (24, "XCPU"), (25, "XFSZ"),
   (26, "VTALRM"), (27, "PROF"), (28, "WINCH"), (29, "IO"), (30, "PWR"),
   (31, "SYS")]

/-- signames[signo]: the array entry, NULL (none) outside the initialized
indexes. -/
def signames (signo : Nat) : Option String := signamesList.lookup signo

/-- The C function __twopence_ssh_exit_signal_callback: scan signo upward over the table
and record the first index whose name matches; record -1 when no entry
matches. -/
def __twopence_ssh_exit_signal_callback (signal : String) : Int :=
  match (List.range NSIG).find?
      (fun signo => signames signo == some signal) with
  | some signo => (signo : Int)
  | none => -1

/-- The two-field status record. -/
structure twopence_status_t where
  major : Int
  minor : Int
deriving DecidableEq

/-- The C function __twopence_ssh_transaction_get_exit_status.  External results: the
end-of-input world and the raw ssh_channel_get_exit_status value.  A
transaction with no status slot or no channel reports nothing; a failed
end-of-input records ReceiveResultsError and returns -1; otherwise the raw
exit status lands in minor, and when it is the SSH_ERROR sentinel and a
nonzero exit signal was captured, the status becomes major EFAULT, minor
the signal; the status slot is then cleared so that the status is reported
at most once. -/
def __twopence_ssh_transaction_get_exit_status (w : twopence_eof_world)
    (rawExitStatus : Int) (trans : twopence_ssh_transaction)
    (status : twopence_status_t) :
    twopence_ssh_transaction × twopence_status_t × Int :=
  if ¬ trans.hasStatusRet then (trans, status, 0)
  else if ¬ trans.channelOpen then (trans, status, 0)
  else
    let r := __twopence_ssh_transaction_send_eof w trans
    if r.rc = SSH_ERROR then
      (__twopence_ssh_transaction_fail r.trans TWOPENCE_RECEIVE_RESULTS_ERROR,
       status, -1)
    else
      let status1 := { status with minor := rawExitStatus }
      let status2 :=
        if status1.minor = SSH_ERROR ∧ r.trans.exit_signal ≠ 0 then
          { major := EFAULT, minor := r.trans.exit_signal }
        else status1
      ({ r.trans with hasStatusRet := false }, status2, 0)

/-- struct twopence_ssh_target: the session template (host, port) plus the
foreground transaction slot. -/
structure twopence_ssh_target where
  template : twopence_ssh_target_template
  foreground : Option twopence_ssh_transaction
deriving DecidableEq

/-- The C function __twopence_ssh_interrupt_ssh.  ctrlCWriteRes is the result of the
ssh_channel_write of the 0x03 byte (byte count or SSH_ERROR).  No
foreground transaction or no channel gives OpenSessionError; under a tty
a closed input side or a failed write gives InterruptCommandError;
without a tty the interrupted flag is set and the function returns 0. -/
def __twopence_ssh_interrupt_ssh (handle : twopence_ssh_target)
    (ctrlCWriteRes : Int) : Int × twopence_ssh_target :=
  match handle.foreground with
  | none => (TWOPENCE_OPEN_SESSION_ERROR, handle)
  | some tr =>
    if ¬ tr.channelOpen then (TWOPENCE_OPEN_SESSION_ERROR, handle)
    else if tr.useTty then
      if tr.eofSent then (TWOPENCE_INTERRUPT_COMMAND_ERROR, handle)
      else if ctrlCWriteRes ≠ 1 then
        (TWOPENCE_INTERRUPT_COMMAND_ERROR, handle)
      else (0, handle)
    else
      (0, { handle with foreground := some { tr with interrupted := true } })

/-- twopence_ssh_exit_remote: unconditionally -1, the handle untouched. -/
def twopence_ssh_exit_remote (handle : twopence_ssh_target) :
    Int × twopence_ssh_target :=
  (-1, handle)

/-- The exit_remote vtable slot of twopence_ssh_ops: present, and bound to
twopence_ssh_exit_remote. -/
def twopence_ssh_ops_exit_remote :
    Option (twopence_ssh_target → Int × twopence_ssh_target) :=
  some twopence_ssh_exit_remote

/-- twopence_exit_remote (generic dispatch in src/library/twopence.c): an
absent vtable entry yields NotSupported, otherwise the entry runs. -/
def twopence_exit_remote
    (entry : Option (twopence_ssh_target → Int × twopence_ssh_target))
    (target : twopence_ssh_target) : Int × twopence_ssh_target :=
  match entry with
  | none => (TWOPENCE_NOT_SUPPORTED, target)
  | some f => f target

/-! ## SCP transfer engine (src/library/ssh.c) -/

/-- libssh ssh_scp_pull_request outcome tags (enum ssh_scp_request_types,
per the external interface: newdir, newfile, end-of-file, ...). -/
def SSH_SCP_REQUEST_NEWDIR : Int := 1

def SSH_SCP_REQUEST_NEWFILE : Int := 2

def SSH_SCP_REQUEST_EOF : Int := 3

/-- The fixed chunk size (BUFFER_SIZE). -/
def BUFFER_SIZE : Nat := 16384

/-- struct twopence_scp_transaction, reduced to the two owned handles the
teardown contract is about: scp != NULL and session != NULL. -/
structure twopence_scp_transaction where
  scpOpen : Bool
  sessionOpen : Bool
deriving DecidableEq

/-- Outcomes of the external calls one inject or extract makes, in
program order.  The chunk outcome functions are indexed by loop
iteration; readChunkOk means the local read (upload) or scp read
(download) returned the full chunk, writeChunkOk the matching write. -/
structure twopence_scp_world where
  openSessionOk : Bool
  filesizeKnown : Bool
  readAllOk : Bool
  remoteDirOk : Bool
  scpNewOk : Bool
  scpInitOk : Bool
  pushOk : Bool
  filesize : Nat
  pullReq1 : Int
  requestSize : Nat
  acceptOk : Bool
  readChunkOk : Nat → Bool
  writeChunkOk : Nat → Bool
  pullReq2 : Int
  errcode : Int

/-- twopence_scp_transfer_init: memset to zero, both handles NULL. -/
def twopence_scp_transfer_init : twopence_scp_transaction :=
  ⟨false, false⟩

/-- twopence_scp_transfer_destroy: close and free the scp handle,
disconnect and free the session. -/
def twopence_scp_transfer_destroy (_trans : twopence_scp_transaction) :
    twopence_scp_transaction :=
  ⟨false, false⟩

/-- twopence_scp_transfer_open_session: on success the transfer owns a
session; on failure OpenSessionError with no session. -/
def twopence_scp_transfer_open_session (w : twopence_scp_world)
    (trans : twopence_scp_transaction) : twopence_scp_transaction × Int :=
  if ¬ w.openSessionOk then (trans, TWOPENCE_OPEN_SESSION_ERROR)
  else ({ trans with sessionOpen := true }, 0)

/-- twopence_scp_transfer_init_copy: ssh_scp_new then ssh_scp_init; a
NULL scp gives OpenSessionError with no scp handle; a failed init gives
OpenSessionError with the scp handle allocated. -/
def twopence_scp_transfer_init_copy (w : twopence_scp_world)
    (trans : twopence_scp_transaction) : twopence_scp_transaction × Int :=
  if ¬ w.scpNewOk then (trans, TWOPENCE_OPEN_SESSION_ERROR)
  else
    let trans := { trans with scpOpen := true }
    if ¬ w.scpInitOk then (trans, TWOPENCE_OPEN_SESSION_ERROR)
    else (trans, 0)

/-- The C function __twopence_ssh_send_file: chunked upload loop.  Each pass reads
min(remaining, BUFFER_SIZE) bytes locally and writes them to the scp
channel; a short local read is LocalFileError, a failed remote write sets
status.major from the session error code and is SendFileError.  Progress
characters go to the sink and do not touch the transfer handles.  Returns
the rc and the status. -/
def __twopence_ssh_send_file (w : twopence_scp_world)
    (status : twopence_status_t) (remaining : Nat) (iter : Nat) :
    Int × twopence_status_t :=
  if h : remaining = 0 then (0, status)
  else
    let size := min remaining BUFFER_SIZE
    if ¬ w.readChunkOk iter then (TWOPENCE_LOCAL_FILE_ERROR, status)
    else if ¬ w.writeChunkOk iter then
      (TWOPENCE_SEND_FILE_ERROR, { status with major := w.errcode })
    else __twopence_ssh_send_file w status (remaining - size) (iter + 1)
termination_by remaining
decreasing_by
  have hpos : 0 < remaining := Nat.pos_of_ne_zero h
  have hmin : 0 < min remaining BUFFER_SIZE := by
    exact lt_min hpos (by decide)
  exact Nat.sub_lt hpos hmin

/-- The C function __twopence_ssh_receive_file: chunked download loop.  Each pass reads
min(remaining, BUFFER_SIZE) bytes from the scp channel (a short read sets
status.major and is ReceiveFileError) and writes them to the local stream
(a short write is LocalFileError). -/
def __twopence_ssh_receive_file (w : twopence_scp_world)
    (status : twopence_status_t) (remaining : Nat) (iter : Nat) :
    Int × twopence_status_t :=
  if h : remaining = 0 then (0, status)
  else
    let size := min remaining BUFFER_SIZE
    if ¬ w.readChunkOk iter then
      (TWOPENCE_RECEIVE_FILE_ERROR, { status with major := w.errcode })
    else if ¬ w.writeChunkOk iter then (TWOPENCE_LOCAL_FILE_ERROR, status)
    else __twopence_ssh_receive_file w status (remaining - size) (iter + 1)
termination_by remaining
decreasing_by
  have hpos : 0 < remaining := Nat.pos_of_ne_zero h
  have hmin : 0 < min remaining BUFFER_SIZE := by
    exact lt_min hpos (by decide)
  exact Nat.sub_lt hpos hmin

/-- The C function __twopence_ssh_inject_ssh: probe the remote directory (SendFileError
when it does not answer with a new-directory indication), open a
write-mode copy, push the file announcement, then run the upload loop. -/
def __twopence_ssh_inject_ssh (w : twopence_scp_world)
    (trans : twopence_scp_transaction) (status : twopence_status_t) :
    twopence_scp_transaction × twopence_status_t × Int :=
  if ¬ w.remoteDirOk then (trans, status, TWOPENCE_SEND_FILE_ERROR)
  else
    let r := twopence_scp_transfer_init_copy w trans
    if r.2 < 0 then (r.1, status, r.2)
    else if ¬ w.pushOk then
      (r.1, { status with major := w.errcode }, TWOPENCE_SEND_FILE_ERROR)
    else
      let s := __twopence_ssh_send_file w status w.filesize 0
      (r.1, s.2, s.1)

/-- The C function __twopence_ssh_extract_ssh: open a read-mode copy, require a new-file
pull request (size zero succeeds immediately), accept the request, run
the download loop, then require an end-of-file pull request. -/
def __twopence_ssh_extract_ssh (w : twopence_scp_world)
    (trans : twopence_scp_transaction) (status : twopence_status_t) :
    twopence_scp_transaction × twopence_status_t × Int :=
  let r := twopence_scp_transfer_init_copy w trans
  if r.2 < 0 then (r.1, status, r.2)
  else if w.pullReq1 ≠ SSH_SCP_REQUEST_NEWFILE then
    (r.1, { status with major := w.errcode }, TWOPENCE_RECEIVE_FILE_ERROR)
  else if w.requestSize = 0 then (r.1, status, 0)
  else if ¬ w.acceptOk then
    (r.1, { status with major := w.errcode }, TWOPENCE_RECEIVE_FILE_ERROR)
  else
    let s := __twopence_ssh_receive_file w status w.requestSize 0
    if s.1 < 0 then (r.1, s.2, s.1)
    else if w.pullReq2 ≠ SSH_SCP_REQUEST_EOF then
      (r.1, { s.2 with major := w.errcode }, TWOPENCE_RECEIVE_FILE_ERROR)
    else (r.1, s.2, 0)

/-- twopence_ssh_inject_file: open a session (failure returns before any
transfer state exists); when the local stream has no known size, buffer
it first and return LocalFileError directly if that fails; run the
upload; map a clean rc with a nonzero embedded status to RemoteFileError;
then destroy the transfer state.  The returned transaction is the
transfer state as it is at the moment the call returns. -/
def twopence_ssh_inject_file (w : twopence_scp_world)
    (status0 : twopence_status_t) :
    Int × twopence_scp_transaction × twopence_status_t :=
  let st := twopence_scp_transfer_init
  let r := twopence_scp_transfer_open_session w st
  if r.2 < 0 then (r.2, r.1, status0)
  else if ¬ w.filesizeKnown ∧ ¬ w.readAllOk then
    (TWOPENCE_LOCAL_FILE_ERROR, r.1, status0)
  else
    let s := __twopence_ssh_inject_ssh w r.1 status0
    let rc := if s.2.2 = 0 ∧ (s.2.1.major ≠ 0 ∨ s.2.1.minor ≠ 0) then
        TWOPENCE_REMOTE_FILE_ERROR
      else s.2.2
    (rc, twopence_scp_transfer_destroy s.1, s.2.1)

/-- twopence_ssh_extract_file: open a session, run the download, map a
clean rc with a nonzero embedded status to RemoteFileError, and return.
The source has no twopence_scp_transfer_destroy call on any path of this
function; the returned transaction is the transfer state at return. -/
def twopence_ssh_extract_file (w : twopence_scp_world)
    (status0 : twopence_status_t) :
    Int × twopence_scp_transaction × twopence_status_t :=
  let st := twopence_scp_transfer_init
  let r := twopence_scp_transfer_open_session w st
  if r.2 < 0 then (r.2, r.1, status0)
  else
    let s := __twopence_ssh_extract_ssh w r.1 status0
    let rc := if s.2.2 = 0 ∧ (s.2.1.major ≠ 0 ∨ s.2.1.minor ≠ 0) then
        TWOPENCE_REMOTE_FILE_ERROR
      else s.2.2
    (rc, s.1, s.2.1)

/-! ## Theorems -/

/-- One stdout write keeps the outbuf capacity and never grows the
content past the capacity. -/
theorem sink_write_stdout_outbuf_step (s : twopence_sink) (c : Char)
    (r : Int) :
    (__twopence_sink_write_stdout s c r).1.outbuf.size = s.outbuf.size ∧
    (s.outbuf.written.length ≤ s.outbuf.size →
      (__twopence_sink_write_stdout s c r).1.outbuf.written.length ≤
        s.outbuf.size) := by
  rcases s with ⟨m, ⟨w, sz⟩, eb⟩
  cases m <;>
    simp [__twopence_sink_write_stdout, __twopence_buffer_putc] <;>
    split_ifs <;> simp_all <;> omega

/-- Any sequence of stdout writes keeps the outbuf capacity and keeps the
content within the capacity. -/
theorem sink_write_stdout_outbuf_seq_bounded (cs : List Char) :
    ∀ (s : twopence_sink) (r : Int),
      s.outbuf.written.length ≤ s.outbuf.size →
      (twopence_sink_write_stdout_seq s cs r).outbuf.written.length ≤
          s.outbuf.size ∧
        (twopence_sink_write_stdout_seq s cs r).outbuf.size =
          s.outbuf.size := by
  induction cs with
  | nil => intro s r h; simp [twopence_sink_write_stdout_seq, h]
  | cons c tl ih =>
      intro s r h
      have hstep := sink_write_stdout_outbuf_step s c r
      have hrec := ih (__twopence_sink_write_stdout s c r).1 r
        (by rw [hstep.1]; exact hstep.2 h)
      constructor
      · calc (twopence_sink_write_stdout_seq s (c :: tl) r).outbuf.written.length
            = (twopence_sink_write_stdout_seq
                (__twopence_sink_write_stdout s c r).1 tl r).outbuf.written.length := by
              simp [twopence_sink_write_stdout_seq]
          _ ≤ (__twopence_sink_write_stdout s c r).1.outbuf.size :=
              hrec.1
          _ = s.outbuf.size := hstep.1
      · calc (twopence_sink_write_stdout_seq s (c :: tl) r).outbuf.size
            = (twopence_sink_write_stdout_seq
                (__twopence_sink_write_stdout s c r).1 tl r).outbuf.size := by
              simp [twopence_sink_write_stdout_seq]
          _ = (__twopence_sink_write_stdout s c r).1.outbuf.size := hrec.2
          _ = s.outbuf.size := hstep.1

/-- C1 counterexample.  A foreground transaction with an open channel and
no tty: interrupt_command returns 0 (success), not the
InterruptCommandError code the claim requires. -/
theorem claim_C1_counterexample :
    (__twopence_ssh_interrupt_ssh
      ⟨⟨[], 22⟩, some { __twopence_ssh_transaction_new with
        channelOpen := true }⟩ 1).1 = 0 ∧
    (__twopence_ssh_interrupt_ssh
      ⟨⟨[], 22⟩, some { __twopence_ssh_transaction_new with
        channelOpen := true }⟩ 1).1 ≠ TWOPENCE_INTERRUPT_COMMAND_ERROR := by
  decide

/-- C1 amended.  For every SSH target whose foreground transaction exists,
has an open channel and was not started under a tty, interrupt_command
sets the interrupted flag on the transaction and returns 0 (success) to
the caller, leaving everything else unchanged. -/
theorem claim_C1_theorem (h : twopence_ssh_target)
    (tr : twopence_ssh_transaction) (w : Int)
    (hfg : h.foreground = some tr) (hch : tr.channelOpen = true)
    (htty : tr.useTty = false) :
    __twopence_ssh_interrupt_ssh h w =
      (0, { h with foreground := some { tr with interrupted := true } }) := by
  unfold __twopence_ssh_interrupt_ssh
  rw [hfg]
  simp [hch, htty]

/-- C1 witness: the amended theorem at a concrete target. -/
theorem claim_C1_witness :
    __twopence_ssh_interrupt_ssh
      ⟨⟨[], 22⟩, some { __twopence_ssh_transaction_new with
        channelOpen := true }⟩ 5 =
      (0, ⟨⟨[], 22⟩, some { __twopence_ssh_transaction_new with
        channelOpen := true, interrupted := true }⟩) :=
  claim_C1_theorem _ _ 5 rfl rfl rfl

/-- C2 counterexample.  A sink initialized in buffer mode with bound 1:
the first write fills the buffer, and the next write returns -1 (an
error), not the success the claim requires.  (The buffer itself stays
unchanged.) -/
theorem claim_C2_counterexample :
    (__twopence_sink_write_stdout
      (__twopence_sink_write_stdout
        (twopence_sink_init OUTPUT_BUFFER true true 1) 'a' 1).1 'b' 1).2
      = -1 ∧
    (__twopence_sink_write_stdout
      (__twopence_sink_write_stdout
        (twopence_sink_init OUTPUT_BUFFER true true 1) 'a' 1).1 'b' 1).1
      = (__twopence_sink_write_stdout
        (twopence_sink_init OUTPUT_BUFFER true true 1) 'a' 1).1 ∧
    (-1 : Int) ≠ 0 := by
  decide

/-- C2 amended.  In the buffered modes, once the cursor has reached the
bound each further write leaves the sink (in particular the buffer)
unchanged and returns -1 (an error), not success; and for arbitrary write
sequences the buffer content never grows past the bound. -/
theorem claim_C2_theorem :
    (∀ (s : twopence_sink) (c : Char) (r : Int),
      (s.mode = OUTPUT_BUFFER ∨ s.mode = OUTPUT_BUFFER_SEPARATELY) →
      s.outbuf.written.length ≥ s.outbuf.size →
      __twopence_sink_write_stdout s c r = (s, -1)) ∧
    (∀ (s : twopence_sink) (cs : List Char) (r : Int),
      s.outbuf.written.length ≤ s.outbuf.size →
      (twopence_sink_write_stdout_seq s cs r).outbuf.written.length ≤
        s.outbuf.size) := by
  constructor
  · intro s c r hmode hfull
    rcases s with ⟨m, ⟨w, sz⟩, eb⟩
    rcases hmode with hm | hm <;> subst hm <;>
      simp_all [__twopence_sink_write_stdout, __twopence_buffer_putc]
  · intro s cs r h
    exact (sink_write_stdout_outbuf_seq_bounded cs s r h).1

/-- C2 witness: the amended theorem at a concrete full sink and a
concrete write sequence. -/
theorem claim_C2_witness :
    __twopence_sink_write_stdout ⟨OUTPUT_BUFFER, ⟨['x'], 1⟩, ⟨[], 0⟩⟩ 'y' 1 =
      (⟨OUTPUT_BUFFER, ⟨['x'], 1⟩, ⟨[], 0⟩⟩, -1) ∧
    (twopence_sink_write_stdout_seq
      ⟨OUTPUT_BUFFER, ⟨[], 2⟩, ⟨[], 0⟩⟩ ['a', 'b', 'c', 'd'] 1).outbuf.written.length ≤ 2 :=
  ⟨claim_C2_theorem.1 ⟨OUTPUT_BUFFER, ⟨['x'], 1⟩, ⟨[], 0⟩⟩ 'y' 1 (Or.inl rfl)
    (by decide),
   claim_C2_theorem.2 ⟨OUTPUT_BUFFER, ⟨[], 2⟩, ⟨[], 0⟩⟩ ['a', 'b', 'c', 'd'] 1
    (by decide)⟩

/-- C7: the end-of-input action is not at-most-once.  A transaction under
a tty whose 0x04 write succeeds (ssh_channel_write returns the byte count
1): because the code compares that byte count with SSH_OK (0), eof_sent
is never set and ssh_channel_send_eof is never called, so a second
end-of-input attempt writes the 0x04 control byte again.  Each conjunct
evaluates one invocation of the stdin-EOF path at this failing input. -/
theorem claim_C7_theorem :
    (__twopence_ssh_transaction_mark_stdin_eof ⟨1, SSH_OK⟩
      { __twopence_ssh_transaction_new with
        channelOpen := true, useTty := true }).2.2.1 = true ∧
    (__twopence_ssh_transaction_mark_stdin_eof ⟨1, SSH_OK⟩
      { __twopence_ssh_transaction_new with
        channelOpen := true, useTty := true }).2.2.2 = false ∧
    (__twopence_ssh_transaction_mark_stdin_eof ⟨1, SSH_OK⟩
      { __twopence_ssh_transaction_new with
        channelOpen := true, useTty := true }).1.eofSent = false ∧
    (__twopence_ssh_transaction_mark_stdin_eof ⟨1, SSH_OK⟩
      (__twopence_ssh_transaction_mark_stdin_eof ⟨1, SSH_OK⟩
        { __twopence_ssh_transaction_new with
          channelOpen := true, useTty := true }).1).2.2.1 = true ∧
    (__twopence_ssh_transaction_mark_stdin_eof ⟨1, SSH_OK⟩
      (__twopence_ssh_transaction_mark_stdin_eof ⟨1, SSH_OK⟩
        { __twopence_ssh_transaction_new with
          channelOpen := true, useTty := true }).1).2.2.2 = false ∧
    (__twopence_ssh_transaction_mark_stdin_eof ⟨1, SSH_OK⟩
      { __twopence_ssh_transaction_new with
        channelOpen := true, useTty := true }).2.1 = 0 := by
  decide

/-- C8: the exception field of a transaction is set-if-absent.  Starting
from a fresh (calloc zeroed) transaction, after any sequence of failure
recordings the exception equals the first nonzero recorded code; and a
recording on a transaction that already has a nonzero exception never
changes it. -/
theorem claim_C8_theorem :
    (∀ l : List Int,
      (l.foldl __twopence_ssh_transaction_fail
        __twopence_ssh_transaction_new).exception = firstNonzero l) ∧
    (∀ (tr : twopence_ssh_transaction) (e : Int), tr.exception ≠ 0 →
      (__twopence_ssh_transaction_fail tr e).exception = tr.exception) := by
  have hsticky : ∀ (l : List Int) (tr : twopence_ssh_transaction),
      tr.exception ≠ 0 →
      (l.foldl __twopence_ssh_transaction_fail tr).exception = tr.exception := by
    intro l
    induction l with
    | nil => intro tr _; rfl
    | cons x tl ih =>
        intro tr h
        have hfail : __twopence_ssh_transaction_fail tr x = tr := by
          simp [__twopence_ssh_transaction_fail, h]
        simp only [List.foldl_cons, hfail]
        exact ih tr h
  have hzero : ∀ (l : List Int) (tr : twopence_ssh_transaction),
      tr.exception = 0 →
      (l.foldl __twopence_ssh_transaction_fail tr).exception = firstNonzero l := by
    intro l
    induction l with
    | nil => intro tr h; simpa [firstNonzero] using h
    | cons x tl ih =>
        intro tr h
        by_cases hx : x = 0
        · subst hx
          have hfail : __twopence_ssh_transaction_fail tr 0 =
              { tr with exception := 0 } := by
            simp [__twopence_ssh_transaction_fail, h]
          simp only [List.foldl_cons, hfail, firstNonzero]
          simpa using ih { tr with exception := 0 } rfl
        · have hfail : __twopence_ssh_transaction_fail tr x =
              { tr with exception := x } := by
            simp [__twopence_ssh_transaction_fail, h]
          simp only [List.foldl_cons, hfail, firstNonzero]
          rw [hsticky tl { tr with exception := x } hx]
          simp [hx]
  refine ⟨fun l => hzero l __twopence_ssh_transaction_new rfl, ?_⟩
  intro tr e h
  simp [__twopence_ssh_transaction_fail, h]

/-- C8 witness: the theorem at a concrete recording sequence and at a
concrete transaction with a nonzero exception. -/
theorem claim_C8_witness :
    ([0, -5, -3].foldl __twopence_ssh_transaction_fail
      __twopence_ssh_transaction_new).exception = -5 ∧
    (__twopence_ssh_transaction_fail
      { __twopence_ssh_transaction_new with exception := -2 } (-7)).exception
      = -2 :=
  ⟨claim_C8_theorem.1 [0, -5, -3],
   claim_C8_theorem.2 { __twopence_ssh_transaction_new with exception := -2 }
    (-7) (by decide)⟩

/-- C10: the SSH exit_remote operation, dispatched through the present
vtable entry, always returns -1 with the target unchanged, and -1 is not
the NotSupported code. -/
theorem claim_C10_theorem (t : twopence_ssh_target) :
    twopence_exit_remote twopence_ssh_ops_exit_remote t = (-1, t) ∧
    (-1 : Int) ≠ TWOPENCE_NOT_SUPPORTED :=
  ⟨rfl, by decide⟩

/-- C3 counterexample.  An unrecognized plugin name ("bogus") and a
zero-length plugin name both make target creation fail with
InvalidTargetSpec, not the UnknownPlugin code the claim requires; the
loading environment (all loads succeeding) is never consulted. -/
theorem claim_C3_counterexample :
    __twopence_target_new
      ⟨fun _ => true, fun _ => true, fun _ => true, fun _ _ => true⟩
      ("bogus:x".toList) = TWOPENCE_INVALID_TARGET_SPEC ∧
    __twopence_target_new
      ⟨fun _ => true, fun _ => true, fun _ => true, fun _ _ => true⟩
      (":x".toList) = TWOPENCE_INVALID_TARGET_SPEC ∧
    TWOPENCE_INVALID_TARGET_SPEC ≠ TWOPENCE_UNKNOWN_PLUGIN := by
  decide

/-- C3 amended.  For every loading environment and every target
specification whose plugin-name component (the prefix before the first
colon) is empty or is not one of the known transport names, creating a
target fails with the InvalidTargetSpec code (not UnknownPlugin). -/
theorem claim_C3_theorem (env : twopence_dl_env) (spec : List Char)
    (h : (spec.takeWhile (fun c => c ≠ ':')).length = 0 ∨
      twopence_plugin_name_is_valid
        (spec.takeWhile (fun c => c ≠ ':')) = false) :
    __twopence_target_new env spec = TWOPENCE_INVALID_TARGET_SPEC := by
  have hsplit : twopence_target_split spec = none := by
    unfold twopence_target_split
    rcases h with h | h
    · rw [if_pos h]
    · by_cases hlen : (spec.takeWhile (fun c => c ≠ ':')).length = 0
      · rw [if_pos hlen]
      · have h2 : ¬ (twopence_plugin_name_is_valid
            (spec.takeWhile (fun c => c ≠ ':')) = true) := by
          rw [h]; exact Bool.false_ne_true
        rw [if_neg hlen, if_neg h2]
  unfold __twopence_target_new
  rw [hsplit]

/-- C3 witness: the amended theorem at a concrete bad specification. -/
theorem claim_C3_witness :
    __twopence_target_new
      ⟨fun _ => true, fun _ => true, fun _ => true, fun _ _ => true⟩
      ("nope:zzz".toList) = TWOPENCE_INVALID_TARGET_SPEC :=
  claim_C3_theorem _ ("nope:zzz".toList) (Or.inr (by decide))

/-- C4: extract_file never tears its Transfer state down.  With every
external call succeeding and a zero-size remote file (a successful
extract), the call returns 0 with the SCP handle still open and the
session still connected; the pipe-buffering failure path of inject_file
also returns with the session still connected; by contrast, the ordinary
inject_file paths do run twopence_scp_transfer_destroy before
returning. -/
theorem claim_C4_theorem :
    twopence_ssh_extract_file
      ⟨true, true, true, true, true, true, true, 0,
        SSH_SCP_REQUEST_NEWFILE, 0, true, fun _ => true, fun _ => true,
        SSH_SCP_REQUEST_EOF, 0⟩ ⟨0, 0⟩ =
      (0, ⟨true, true⟩, ⟨0, 0⟩) ∧
    (twopence_ssh_inject_file
      ⟨true, false, false, true, true, true, true, 0,
        SSH_SCP_REQUEST_NEWFILE, 0, true, fun _ => true, fun _ => true,
        SSH_SCP_REQUEST_EOF, 0⟩ ⟨0, 0⟩).1 = TWOPENCE_LOCAL_FILE_ERROR ∧
    (twopence_ssh_inject_file
      ⟨true, false, false, true, true, true, true, 0,
        SSH_SCP_REQUEST_NEWFILE, 0, true, fun _ => true, fun _ => true,
        SSH_SCP_REQUEST_EOF, 0⟩ ⟨0, 0⟩).2.1.sessionOpen = true ∧
    (twopence_ssh_inject_file
      ⟨true, true, true, true, true, true, false, 0,
        SSH_SCP_REQUEST_NEWFILE, 0, true, fun _ => true, fun _ => true,
        SSH_SCP_REQUEST_EOF, 0⟩ ⟨0, 0⟩).2.1 = ⟨false, false⟩ := by
  decide

/-- A successful association-list lookup returns one of the stored
values. -/
theorem lookup_mem_snd {l : List (Nat × String)} {k : Nat} {v : String}
    (h : l.lookup k = some v) : v ∈ l.map Prod.snd := by
  induction l with
  | nil => simp [List.lookup] at h
  | cons p tl ih =>
      rcases p with ⟨a, b⟩
      rw [List.lookup_cons] at h
      cases hk : (k == a)
      · rw [hk] at h
        simp only [List.map_cons]
        exact List.mem_cons_of_mem _ (ih h)
      · rw [hk] at h
        simp only [List.map_cons]
        simp at h
        rw [← h]
        exact List.mem_cons_self _ _

set_option maxRecDepth 4096

/-- C5: exit-status synthesis and signal-name mapping.  When the remote
exit status reads as the SSH_ERROR sentinel and the callback has recorded
a nonzero exit signal S, the reported status is major EFAULT, minor S.
The callback maps every name in the runtime signal table to its signal
number, and any name outside that table to the -1 sentinel. -/
theorem claim_C5_theorem :
    (∀ (w : twopence_eof_world) (raw S : Int)
      (tr : twopence_ssh_transaction) (st : twopence_status_t),
      tr.hasStatusRet = true → tr.channelOpen = true → tr.eofSent = true →
      tr.exit_signal = S → S ≠ 0 → raw = SSH_ERROR →
      (__twopence_ssh_transaction_get_exit_status w raw tr st).2.1 =
        ⟨EFAULT, S⟩) ∧
    (∀ p ∈ signamesList,
      __twopence_ssh_exit_signal_callback p.2 = (p.1 : Int)) ∧
    (∀ s : String, s ∉ signamesList.map Prod.snd →
      __twopence_ssh_exit_signal_callback s = -1) := by
  refine ⟨?_, ?_, ?_⟩
  · intro w raw S tr st h1 h2 h3 h4 h5 h6
    subst h4
    subst h6
    simp [__twopence_ssh_transaction_get_exit_status,
      __twopence_ssh_transaction_send_eof, h1, h2, h3, h5, SSH_OK, SSH_ERROR,
      EFAULT]
  · decide
  · intro s hs
    have hnone : (List.range NSIG).find?
        (fun signo => signames signo == some s) = none :=
      List.find?_eq_none.2 (fun signo _ hbeq =>
        hs (lookup_mem_snd (eq_of_beq hbeq)))
    unfold __twopence_ssh_exit_signal_callback
    rw [hnone]

/-- C5 witness: the theorem at a concrete signal-death transaction
(signal 15, TERM) and at concrete recognized and unrecognized names. -/
theorem claim_C5_witness :
    (__twopence_ssh_transaction_get_exit_status ⟨1, 0⟩ (-1)
      { __twopence_ssh_transaction_new with
        hasStatusRet := true
        channelOpen := true
        eofSent := true
        exit_signal := 15 }
      ⟨0, 0⟩).2.1 = ⟨14, 15⟩ ∧
    __twopence_ssh_exit_signal_callback "INT" = 2 ∧
    __twopence_ssh_exit_signal_callback "TERM" = 15 ∧
    __twopence_ssh_exit_signal_callback "KILL" = 9 ∧
    __twopence_ssh_exit_signal_callback "FOO" = -1 :=
  ⟨claim_C5_theorem.1 ⟨1, 0⟩ (-1) 15 _ ⟨0, 0⟩ rfl rfl rfl rfl (by decide) rfl,
   claim_C5_theorem.2.1 (2, "INT") (by decide),
   claim_C5_theorem.2.1 (15, "TERM") (by decide),
   claim_C5_theorem.2.1 (9, "KILL") (by decide),
   claim_C5_theorem.2.2 "FOO" (by decide)⟩

/-- takeWhile of a list made of a satisfying prefix, a failing sentinel
and a tail is exactly the prefix. -/
theorem takeWhile_append_stop (p : Char → Bool) :
    ∀ (l1 : List Char) (a : Char) (l2 : List Char),
      (∀ x ∈ l1, p x = true) → p a = false →
      (l1 ++ a :: l2).takeWhile p = l1 := by
  intro l1
  induction l1 with
  | nil => intro a l2 _ hpa; simp [List.takeWhile_cons, hpa]
  | cons x tl ih =>
      intro a l2 h hpa
      have hx : p x = true := h x (by simp)
      simp only [List.cons_append, List.takeWhile_cons, hx]
      simp [ih a l2 (fun y hy => h y (by simp [hy])) hpa]

/-- The strrchr split of host ++ colon ++ port when the port part holds
no colon. -/
theorem splitAtLastColon_append (host p : List Char)
    (hp : ∀ c ∈ p, c ≠ ':') :
    splitAtLastColon (host ++ ':' :: p) = (host, p) := by
  unfold splitAtLastColon
  have hrev : (host ++ ':' :: p).reverse = p.reverse ++ ':' :: host.reverse := by
    simp
  rw [hrev]
  have htake : (p.reverse ++ ':' :: host.reverse).takeWhile
      (fun c => c ≠ ':') = p.reverse := by
    apply takeWhile_append_stop
    · intro x hx
      simp only [decide_eq_true_eq]
      exact hp x (List.mem_reverse.1 hx)
    · decide
  have hdrop : (p.reverse ++ ':' :: host.reverse).drop (p.reverse.length + 1)
      = host.reverse := by
    have heq : p.reverse ++ ':' :: host.reverse =
        (p.reverse ++ [':']) ++ host.reverse := by simp
    rw [heq]
    have hlen : (p.reverse ++ [':']).length = p.reverse.length + 1 := by simp
    rw [← hlen, List.drop_left]
  simp only [htake, List.length_reverse] at hdrop ⊢
  simp [hdrop]

/-- A decimal digit is not a colon. -/
theorem digit_ne_colon {c : Char} (h : isDigitC c = true) : c ≠ ':' := by
  intro e
  subst e
  simp [isDigitC] at h

/-- strtoul on a nonempty all-digit string consumes everything and yields
the numeric value (clamped at ULONG_MAX). -/
theorem strtoul10_digits (p : List Char) (hne : p ≠ [])
    (hall : p.all isDigitC = true) :
    strtoul10 p =
      (if digitsToNat p > ULONG_MAX then ULONG_MAX else digitsToNat p, []) := by
  rcases p with _ | ⟨d, tl⟩
  · exact absurd rfl hne
  have hd : isDigitC d = true := List.all_eq_true.1 hall d (by simp)
  have hspace : isSpaceC d = false := by
    simp [isDigitC] at hd
    simp [isSpaceC]
    omega
  have hminus : d ≠ '-' := by
    intro e; subst e; simp [isDigitC] at hd
  have hplus : d ≠ '+' := by
    intro e; subst e; simp [isDigitC] at hd
  have htake : (d :: tl).takeWhile isDigitC = d :: tl :=
    List.takeWhile_eq_self_iff.2 (List.all_eq_true.1 hall)
  simp [strtoul10, List.dropWhile_cons, hspace, hminus, hplus, htake,
    List.drop_length]

/-- What twopence_ssh_init does on a spec of the shape host ++ colon ++
port, in terms of the strtoul parse of the port part. -/
theorem ssh_init_split_eval (host p : List Char) (hp : ∀ c ∈ p, c ≠ ':') :
    twopence_ssh_init (host ++ ':' :: p) =
      (if (strtoul10 p).2 ≠ [] ∨ (strtoul10 p).1 ≥ 65535 then none
       else some ⟨twopence_ssh_strip_brackets host, (strtoul10 p).1⟩) := by
  have hc : (host ++ ':' :: p).contains ':' = true :=
    List.elem_iff.2 (by simp)
  unfold twopence_ssh_init
  simp only [splitAtLastColon_append host p hp, hc]
  simp

/-- C6 counterexample.  The spec "host:" has an empty trailing port,
which is not a decimal integer, yet a handle is produced: strtoul parses
the empty suffix as 0 consuming nothing, leaving the end pointer at the
terminating NUL, so the port check passes with port 0. -/
theorem claim_C6_counterexample :
    twopence_ssh_init ("host".toList ++ [':']) = some ⟨"host".toList, 0⟩ := by
  decide

/-- C6 amended.  The three positive parsing examples hold, as does the
out-of-range example; in general a nonempty all-digit trailing port of
value at least 65535 yields no handle and one of value below 65535 yields
a handle with that port and the bracket-stripped host; but a trailing
port need not be a decimal integer for a handle to be produced: the exact
criterion is the strtoul parse, and in particular an empty trailing port
yields a handle with port 0. -/
theorem claim_C6_theorem :
    twopence_ssh_init ("host".toList) = some ⟨"host".toList, 22⟩ ∧
    twopence_ssh_init ("host:2222".toList) = some ⟨"host".toList, 2222⟩ ∧
    twopence_ssh_init ("[::1]:22".toList) = some ⟨"::1".toList, 22⟩ ∧
    twopence_ssh_init ("host:99999".toList) = none ∧
    (∀ host p : List Char, p ≠ [] → p.all isDigitC = true →
      digitsToNat p ≥ 65535 → twopence_ssh_init (host ++ ':' :: p) = none) ∧
    (∀ host p : List Char, p ≠ [] → p.all isDigitC = true →
      digitsToNat p < 65535 →
      twopence_ssh_init (host ++ ':' :: p) =
        some ⟨twopence_ssh_strip_brackets host, digitsToNat p⟩) ∧
    (∀ host : List Char,
      twopence_ssh_init (host ++ [':']) =
        some ⟨twopence_ssh_strip_brackets host, 0⟩) := by
  refine ⟨by decide, by decide, by decide, by decide, ?_, ?_, ?_⟩
  · intro host p h1 h2 h3
    have hp : ∀ c ∈ p, c ≠ ':' := fun c hc =>
      digit_ne_colon (List.all_eq_true.1 h2 c hc)
    rw [ssh_init_split_eval host p hp, strtoul10_digits p h1 h2]
    have hge : (if digitsToNat p > ULONG_MAX then ULONG_MAX
        else digitsToNat p) ≥ 65535 := by
      split_ifs with h
      · norm_num [ULONG_MAX]
      · exact h3
    simp [hge]
  · intro host p h1 h2 h3
    have hp : ∀ c ∈ p, c ≠ ':' := fun c hc =>
      digit_ne_colon (List.all_eq_true.1 h2 c hc)
    rw [ssh_init_split_eval host p hp, strtoul10_digits p h1 h2]
    have hnc : ¬ (digitsToNat p > ULONG_MAX) := by
      have : (65535 : Nat) ≤ ULONG_MAX := by norm_num [ULONG_MAX]
      omega
    simp [hnc]
    omega
  · intro host
    have h0 : strtoul10 [] = (0, []) := rfl
    rw [ssh_init_split_eval host [] (by simp), h0]
    simp

/-- C6 witness: the amended theorem at the concrete spec "abc:80". -/
theorem claim_C6_witness :
    twopence_ssh_init ("abc".toList ++ ':' :: "80".toList) =
      some ⟨twopence_ssh_strip_brackets ("abc".toList),
        digitsToNat ("80".toList)⟩ :=
  claim_C6_theorem.2.2.2.2.2.1 ("abc".toList) ("80".toList) (by decide)
    (by decide) (by decide)

/-- C9 counterexample.  The not-supported and command-timeout codes are
in the closed taxonomy, yet the string mapping returns the generic
unknown-error string for them, exactly as for a code outside the
taxonomy. -/
theorem claim_C9_counterexample :
    TWOPENCE_NOT_SUPPORTED ∈ twopence_error_codes ∧
    TWOPENCE_COMMAND_TIMEOUT_ERROR ∈ twopence_error_codes ∧
    twopence_strerror TWOPENCE_NOT_SUPPORTED = "Unknow error" ∧
    twopence_strerror TWOPENCE_COMMAND_TIMEOUT_ERROR = "Unknow error" ∧
    twopence_strerror 12345 = "Unknow error" := by
  decide

/-- C9 amended.  Thirteen of the fifteen taxonomy codes have their own
fixed description, pairwise distinct and distinct from the generic
string; every other code, including the taxonomy members NotSupported and
CommandTimeoutError, maps to the generic unknown-error string. -/
theorem claim_C9_theorem :
    (∀ rc : Int, rc ∉ twopence_strerror_handled →
      twopence_strerror rc = "Unknow error") ∧
    (∀ rc ∈ twopence_strerror_handled,
      twopence_strerror rc ≠ "Unknow error") ∧
    (twopence_strerror_handled.map twopence_strerror).Nodup ∧
    TWOPENCE_NOT_SUPPORTED ∈ twopence_error_codes ∧
    TWOPENCE_NOT_SUPPORTED ∉ twopence_strerror_handled ∧
    TWOPENCE_COMMAND_TIMEOUT_ERROR ∈ twopence_error_codes ∧
    TWOPENCE_COMMAND_TIMEOUT_ERROR ∉ twopence_strerror_handled := by
  refine ⟨?_, by decide, by decide, by decide, by decide, by decide,
    by decide⟩
  intro rc h
  have n1 : rc ≠ TWOPENCE_PARAMETER_ERROR := fun e => h (by rw [e]; decide)
  have n2 : rc ≠ TWOPENCE_OPEN_SESSION_ERROR := fun e => h (by rw [e]; decide)
  have n3 : rc ≠ TWOPENCE_SEND_COMMAND_ERROR := fun e => h (by rw [e]; decide)
  have n4 : rc ≠ TWOPENCE_FORWARD_INPUT_ERROR := fun e => h (by rw [e]; decide)
  have n5 : rc ≠ TWOPENCE_RECEIVE_RESULTS_ERROR := fun e =>
    h (by rw [e]; decide)
  have n6 : rc ≠ TWOPENCE_LOCAL_FILE_ERROR := fun e => h (by rw [e]; decide)
  have n7 : rc ≠ TWOPENCE_SEND_FILE_ERROR := fun e => h (by rw [e]; decide)
  have n8 : rc ≠ TWOPENCE_REMOTE_FILE_ERROR := fun e => h (by rw [e]; decide)
  have n9 : rc ≠ TWOPENCE_RECEIVE_FILE_ERROR := fun e => h (by rw [e]; decide)
  have n10 : rc ≠ TWOPENCE_INTERRUPT_COMMAND_ERROR := fun e =>
    h (by rw [e]; decide)
  have n11 : rc ≠ TWOPENCE_INVALID_TARGET_SPEC := fun e => h (by rw [e]; decide)
  have n12 : rc ≠ TWOPENCE_UNKNOWN_PLUGIN := fun e => h (by rw [e]; decide)
  have n13 : rc ≠ TWOPENCE_INCOMPATIBLE_PLUGIN := fun e => h (by rw [e]; decide)
  simp [twopence_strerror, n1, n2, n3, n4, n5, n6, n7, n8, n9, n10, n11,
    n12, n13]

/-- C9 witness: the amended theorem at a code outside the handled set. -/
theorem claim_C9_witness : twopence_strerror 7 = "Unknow error" :=
  claim_C9_theorem.1 7 (by decide)

/-- C10 witness: the theorem at a concrete SSH target. -/
theorem claim_C10_witness :
    twopence_exit_remote twopence_ssh_ops_exit_remote ⟨⟨[], 22⟩, none⟩ =
      (-1, ⟨⟨[], 22⟩, none⟩) ∧ (-1 : Int) ≠ TWOPENCE_NOT_SUPPORTED :=
  claim_C10_theorem ⟨⟨[], 22⟩, none⟩
